import Mathlib

/-!
Verification of the movie-recommender backend's recommendation core:
the serving wrapper (`src/api/recommend/recommender.py`) and the two
neural model variants (`src/api/recommend/models/NeuralMF.py`,
`src/api/recommend/models/DeepFM.py`), shallowly embedded in Lean.

Conventions of the embedding:
* Python exceptions are modelled by the `PyErr` type; fallible
  operations return `Except PyErr _`.
* Real-valued scores are modelled by `ℚ`; the sentinel `float('-inf')`
  used for masking is modelled by `⊥` in `WithBot ℚ`.
* The neural network forward pass (an MLP over floats) is not embedded
  numerically; every theorem quantifies over the forward function,
  which is constrained to depend exactly on the data the checkpoint
  records (embedding dimension, hidden layer sizes, dropout, weights).
* `np.argpartition(-scores, k)[:k]` followed by
  `argsort(-scores[sel])` selects the `k` largest entries sorted by
  descending score; numpy leaves the relative order of tied scores
  unspecified, and the embedding resolves ties deterministically by
  ascending item index (`rankLe`).  Every refuted statement below is
  refuted by a tie-independent observation (result length, or the
  pigeonhole fact that a masked item must be returned).
-/

namespace MovieRec

/-- Python exception surface of the recommendation core.  `invalidShape`
is the typed error named by the spec's error taxonomy; it appears here so
that theorems can state whether the code ever raises it. -/
inductive PyErr where
  | keyError : PyErr
  | fileNotFound : PyErr
  | valueError : String → PyErr
  | indexError : PyErr
  | attributeError : PyErr
  | argpartitionOOB : PyErr
  | invalidShape : PyErr
  | restoreError : PyErr
deriving DecidableEq

/-! ## Recommender wrapper (`recommender.py`) -/

/-- A resident model instance held in the wrapper's active slot.
`iid` is the identity of the Python object (fresh per instantiation);
`restored` records whether `restore` has completed on it. -/
structure MInst where
  name : String
  iid : Nat
  restored : Bool
deriving DecidableEq

/-- The wrapper's mutable state: `self.model_name` and `self.model`
(both `None` after `__init__`). -/
structure RecommenderWrapper where
  model_name : Option String
  model : Option MInst
deriving DecidableEq

/-- Observable side effects of `set_model`, used to state the no-op
property ("does not reinstantiate or re-restore"). -/
inductive Event where
  | constructed : String → Event
  | restored : String → Event
deriving DecidableEq

/-- The wrapper's environment: the variant registry `model_to_cls`
(names with a registered constructor), the static checkpoint-path map
`model_to_ckpt`, the filesystem (`pathExists`), and whether
`model.restore` succeeds on the variant's checkpoint file
(deserialization can fail even when the file exists). -/
structure Env where
  model_to_cls : List String
  model_to_ckpt : String → String
  pathExists : String → Bool
  restoreOk : String → Bool

/-- Embedding of `RecommenderWrapper.set_model` (recommender.py lines 14-43).
`fresh` is the identity the Python runtime gives the newly constructed
model object.  Mirrors the source order: the name comparison, then
`self.model_name = new_model` (before any validation), then the
registry check (`KeyError`), construction of the instance into
`self.model`, the checkpoint-existence check (`FileNotFoundError`),
and finally `self.model.restore(...)`. -/
def RecommenderWrapper.set_model (env : Env) (s : RecommenderWrapper) (fresh : Nat)
    (new_model : String) : RecommenderWrapper × List Event × Except PyErr Unit :=
  if s.model_name ≠ some new_model then
    let s1 : RecommenderWrapper := { s with model_name := some new_model }
    if new_model ∈ env.model_to_cls then
      let inst : MInst := { name := new_model, iid := fresh, restored := false }
      let s2 : RecommenderWrapper := { s1 with model := some inst }
      let path := env.model_to_ckpt new_model
      if env.pathExists path then
        if env.restoreOk new_model then
          ({ s2 with model := some { inst with restored := true } },
           [Event.constructed new_model, Event.restored new_model], Except.ok ())
        else (s2, [Event.constructed new_model], Except.error PyErr.restoreError)
      else (s2, [Event.constructed new_model], Except.error PyErr.fileNotFound)
    else (s1, [], Except.error PyErr.keyError)
  else (s, [], Except.ok ())

/-- Embedding of `RecommenderWrapper.recommend` (recommender.py lines 45-63),
parametrized by the active model's `recommend` method.  `self.model` is
checked first, then `self.model_name`; on success the context is passed
through `[int(i) for i in user_context]` (identity on integers) and
delegated to the model. -/
def RecommenderWrapper.recommend (modelRec : MInst → List Int → Except PyErr (List Nat))
    (s : RecommenderWrapper) (user_context : List Int) : Except PyErr (List Nat) :=
  match s.model with
  | none => Except.error (PyErr.valueError "No model loaded. Call set_model() first.")
  | some inst =>
    match s.model_name with
    | none => Except.error (PyErr.valueError "Model name not set. Call set_model() first.")
    | some _ =>
      let user_item_ids := user_context.map (fun i => i)
      modelRec inst user_item_ids

/-! ### Concrete wrapper inputs used in counterexamples and witnesses -/

/-- The registry of `models/__init__.py` with all four variants present,
over a filesystem on which no checkpoint file exists. -/
def env0 : Env :=
  { model_to_cls := ["EASE", "ItemKNN", "NeuralMF", "DeepFM"]
    model_to_ckpt := fun n => "recommend/ckpt/" ++ n
    pathExists := fun _ => false
    restoreOk := fun _ => true }

/-- A wrapper state in which a previous `set_model("EASE")` succeeded. -/
def s0 : RecommenderWrapper :=
  { model_name := some "EASE", model := some { name := "EASE", iid := 0, restored := true } }

/-- A wrapper state in which a previous `set_model("NeuralMF")` succeeded. -/
def s1 : RecommenderWrapper :=
  { model_name := some "NeuralMF"
    model := some { name := "NeuralMF", iid := 7, restored := true } }

/-- A concrete stand-in for the active model's `recommend` method. -/
def modelRec0 : MInst → List Int → Except PyErr (List Nat) := fun _ _ => Except.ok [2, 3]

/-- C1 (counterexample): `set_model` is not atomic on failure.  From a
state with `EASE` loaded, `set_model("NeuralMF")` with the checkpoint
file absent fails with `FileNotFoundError`, yet afterwards the recorded
model name is no longer `"EASE"` and the active slot no longer holds the
previous instance. -/
theorem setModel_not_atomic_counterexample :
    (RecommenderWrapper.set_model env0 s0 1 "NeuralMF").2.2 =
        Except.error PyErr.fileNotFound ∧
    (RecommenderWrapper.set_model env0 s0 1 "NeuralMF").1.model_name ≠ s0.model_name ∧
    (RecommenderWrapper.set_model env0 s0 1 "NeuralMF").1.model ≠ s0.model := by
  refine ⟨rfl, ?_, ?_⟩ <;> decide

/-- C1 (amended): `set_model(name)` with a different `name` mutates the
wrapper before validating: on every failure the recorded model name has
already been changed to the requested name; on a registry failure
(`KeyError`) the active slot still holds the previous instance, but on a
missing checkpoint (`FileNotFoundError`) or a restore failure the active
slot has already been replaced by the fresh, un-restored instance. -/
theorem set_model_failure_mutates_state (env : Env) (s : RecommenderWrapper)
    (fresh : Nat) (n : String) (h : s.model_name ≠ some n) :
    (n ∉ env.model_to_cls →
      RecommenderWrapper.set_model env s fresh n =
        ({ s with model_name := some n }, [], Except.error PyErr.keyError)) ∧
    (n ∈ env.model_to_cls → env.pathExists (env.model_to_ckpt n) = false →
      RecommenderWrapper.set_model env s fresh n =
        ({ s with model_name := some n,
                  model := some { name := n, iid := fresh, restored := false } },
         [Event.constructed n], Except.error PyErr.fileNotFound)) ∧
    (n ∈ env.model_to_cls → env.pathExists (env.model_to_ckpt n) = true →
      env.restoreOk n = false →
      RecommenderWrapper.set_model env s fresh n =
        ({ s with model_name := some n,
                  model := some { name := n, iid := fresh, restored := false } },
         [Event.constructed n], Except.error PyErr.restoreError)) := by
  refine ⟨?_, ?_, ?_⟩
  · intro h1
    simp [RecommenderWrapper.set_model, h, h1]
  · intro h1 h2
    simp [RecommenderWrapper.set_model, h, h1, h2]
  · intro h1 h2 h3
    simp [RecommenderWrapper.set_model, h, h1, h2, h3]

/-- Witness for `set_model_failure_mutates_state` at a concrete state. -/
theorem set_model_failure_mutates_state_witness :
    RecommenderWrapper.set_model env0 s0 1 "NeuralMF" =
      ({ s0 with model_name := some "NeuralMF",
                 model := some { name := "NeuralMF", iid := 1, restored := false } },
       [Event.constructed "NeuralMF"], Except.error PyErr.fileNotFound) :=
  (set_model_failure_mutates_state env0 s0 1 "NeuralMF" (by decide)).2.1 (by decide) rfl

/-- C5: calling `set_model` with the name that is already recorded is a
no-op: the wrapper state (in particular the active model instance) is
unchanged, no instance is constructed and `restore` is not called. -/
theorem set_model_same_name_noop (env : Env) (s : RecommenderWrapper) (fresh : Nat)
    (n : String) (h : s.model_name = some n) :
    RecommenderWrapper.set_model env s fresh n = (s, [], Except.ok ()) := by
  simp [RecommenderWrapper.set_model, h]

/-- Witness for `set_model_same_name_noop`. -/
theorem set_model_same_name_noop_witness :
    RecommenderWrapper.set_model env0 s1 8 "NeuralMF" = (s1, [], Except.ok ()) :=
  set_model_same_name_noop env0 s1 8 "NeuralMF" rfl

/-- C6 (counterexample): when a model name is recorded but the active
slot holds no object, the wrapper's `recommend` raises exactly the same
`NotLoaded` error (`"No model loaded. Call set_model() first."`) as when
no model has ever been set — not a distinct instantiation error. -/
theorem recommend_same_error_counterexample :
    RecommenderWrapper.recommend modelRec0
        { model_name := some "EASE", model := none } [0, 1] =
      Except.error (PyErr.valueError "No model loaded. Call set_model() first.") ∧
    RecommenderWrapper.recommend modelRec0
        { model_name := none, model := none } [0, 1] =
      Except.error (PyErr.valueError "No model loaded. Call set_model() first.") :=
  ⟨rfl, rfl⟩

/-- C6 (amended): the wrapper's `recommend` fails with the `NotLoaded`
error whenever the active slot holds no object, regardless of whether a
name is recorded; the distinct error `"Model name not set..."` is raised
only in the converse corruption (an object without a recorded name); and
when both are present it delegates to the active model's `recommend` on
the context. -/
theorem wrapper_recommend_requires_loaded
    (f : MInst → List Int → Except PyErr (List Nat)) (s : RecommenderWrapper)
    (ctx : List Int) :
    (s.model = none →
      RecommenderWrapper.recommend f s ctx =
        Except.error (PyErr.valueError "No model loaded. Call set_model() first.")) ∧
    (∀ inst, s.model = some inst → s.model_name = none →
      RecommenderWrapper.recommend f s ctx =
        Except.error (PyErr.valueError "Model name not set. Call set_model() first.")) ∧
    (∀ inst n, s.model = some inst → s.model_name = some n →
      RecommenderWrapper.recommend f s ctx = f inst ctx) := by
  refine ⟨?_, ?_, ?_⟩
  · intro h
    simp [RecommenderWrapper.recommend, h]
  · intro inst h h'
    simp [RecommenderWrapper.recommend, h, h']
  · intro inst n h h'
    simp [RecommenderWrapper.recommend, h, h']

/-- Witness for `wrapper_recommend_requires_loaded`. -/
theorem wrapper_recommend_requires_loaded_witness :
    RecommenderWrapper.recommend modelRec0 { model_name := none, model := none } [3] =
      Except.error (PyErr.valueError "No model loaded. Call set_model() first.") ∧
    RecommenderWrapper.recommend modelRec0 s1 [3] =
      modelRec0 { name := "NeuralMF", iid := 7, restored := true } [3] :=
  ⟨(wrapper_recommend_requires_loaded modelRec0 _ [3]).1 rfl,
   (wrapper_recommend_requires_loaded modelRec0 s1 [3]).2.2 _ _ rfl rfl⟩

/-! ## Neural model variants (`models/NeuralMF.py`, `models/DeepFM.py`)

The two variant classes have textually identical `predict`, `recommend`
and lifecycle logic (they differ only in the network architecture and in
the name of the hidden-dimensions hyperparameter), so the shared bodies
are embedded once (`predictCore`, `recommendCore`) and each variant's
method is the instantiation at that variant's fields. -/

/-- A (dense view of a) scipy rating matrix: its shape and entries.
The sparsity pattern `nonzero()` is the set of positions with a nonzero
entry. -/
structure RatingMatrix where
  rows : Nat
  cols : Nat
  entry : Nat → Nat → ℚ

/-- The selection order of the top-k extraction
`np.argpartition(-scores, k)[:k]` then `argsort(-scores[sel])`:
index `i` comes before index `j` when `i`'s score is higher, with tied
scores resolved deterministically by ascending index (numpy leaves tie
order unspecified; this is one refinement of it). -/
def rankLe (s : Nat → WithBot ℚ) (i j : Nat) : Prop :=
  s j < s i ∨ (s i = s j ∧ i ≤ j)

instance rankLe.decidableRel (s : Nat → WithBot ℚ) : DecidableRel (rankLe s) := fun _ _ =>
  inferInstanceAs (Decidable (_ ∨ _))

instance rankLe.isTotal (s : Nat → WithBot ℚ) : IsTotal Nat (rankLe s) where
  total i j := by
    rcases lt_trichotomy (s i) (s j) with h | h | h
    · exact Or.inr (Or.inl h)
    · rcases Nat.le_total i j with hij | hij
      · exact Or.inl (Or.inr ⟨h, hij⟩)
      · exact Or.inr (Or.inr ⟨h.symm, hij⟩)
    · exact Or.inl (Or.inl h)

instance rankLe.isTrans (s : Nat → WithBot ℚ) : IsTrans Nat (rankLe s) where
  trans a b c hab hbc := by
    rcases hab with hab | ⟨hab, hab'⟩ <;> rcases hbc with hbc | ⟨hbc, hbc'⟩
    · exact Or.inl (hbc.trans hab)
    · exact Or.inl (hbc ▸ hab)
    · exact Or.inl (hab ▸ hbc)
    · exact Or.inr ⟨hab.trans hbc, hab'.trans hbc'⟩

/-- The item indices selected by the two-line top-k extraction: the
`top_k` highest-scoring indices of `0, …, n-1`, ordered by descending
score (ties by ascending index). -/
def topKIndices (s : Nat → WithBot ℚ) (top_k n : Nat) : List Nat :=
  (List.insertionSort (rankLe s) (List.range n)).take top_k

/-- The score vector after `scores[user_context] = float('-inf')`:
items in the context get `⊥`, the rest keep their model score. -/
def maskedScore (score : Nat → ℚ) (ctx : List Nat) (i : Nat) : WithBot ℚ :=
  if i ∈ ctx then ⊥ else (score i : WithBot ℚ)

/-- The number of items of `0, …, num_items-1` whose score is not
masked by the context ("available" items). -/
def availableItems (num_items : Nat) (ctx : List Nat) : Nat :=
  (List.range num_items).countP (fun i => decide (i ∉ ctx))

/-- Shared body of `NeuralMF.recommend` / `DeepFM.recommend` (NeuralMF.py
lines 190-237, DeepFM.py lines 240-286).  In source order: the
`model_loaded` check, the empty-context early return, `self.model.eval()`
(an `AttributeError` on a `None` model), the batched forward pass
producing one score per item for proxy user 0 (`score w i`), the masking
`scores[user_context] = -inf` (an `IndexError` on an out-of-range id),
and `np.argpartition(-scores, top_k)` (which raises when
`top_k ≥ len(scores)`) followed by the sort of the selected block. -/
def recommendCore (model_loaded : Bool) (model : Option (List ℚ)) (num_items : Nat)
    (score : List ℚ → Nat → ℚ) (user_context : List Nat) (top_k : Nat) :
    Except PyErr (List Nat) :=
  if model_loaded = false then
    Except.error (PyErr.valueError "Model not loaded. Call restore() first.")
  else if user_context.length = 0 then Except.ok []
  else
    match model with
    | none => Except.error PyErr.attributeError
    | some w =>
      if user_context.any (fun c => num_items ≤ c) then Except.error PyErr.indexError
      else if num_items ≤ top_k then Except.error PyErr.argpartitionOOB
      else Except.ok (topKIndices (maskedScore (score w) user_context) top_k num_items)

/-- The index range on which `predict`'s batched forward pass raises an
embedding lookup `IndexError`: the model is called only when the input
has at least one column (the per-user batch loop) and at least one row
(the outer loop); a user index reaches `num_users` when the input has
more rows than the model, and the item ids `0, …, cols-1` exceed the
item-embedding table when the input has more columns. -/
def predictErrCond (num_users num_items : Nat) (R : RatingMatrix) : Prop :=
  0 < R.cols ∧ (num_users < R.rows ∨ (0 < R.rows ∧ num_items < R.cols))

instance (num_users num_items : Nat) (R : RatingMatrix) :
    Decidable (predictErrCond num_users num_items R) :=
  inferInstanceAs (Decidable (_ ∧ _))

/-- Shared body of `NeuralMF.predict` / `DeepFM.predict` (NeuralMF.py
lines 155-188, DeepFM.py lines 207-238): the `model_loaded` check,
`self.model.eval()`, the dense forward pass over the *input* shape, and
the final masking `predictions[rating_matrix.nonzero()] = -inf`, here
fused into the entry formula. -/
def predictCore (model_loaded : Bool) (model : Option (List ℚ)) (num_users num_items : Nat)
    (fwd : List ℚ → Nat → Nat → ℚ) (R : RatingMatrix) :
    Except PyErr (List (List (WithBot ℚ))) :=
  if model_loaded = false then
    Except.error (PyErr.valueError "Model not loaded. Call restore() first.")
  else
    match model with
    | none => Except.error PyErr.attributeError
    | some w =>
      if predictErrCond num_users num_items R then Except.error PyErr.indexError
      else
        Except.ok ((List.range R.rows).map fun u => (List.range R.cols).map fun i =>
          if R.entry u i ≠ 0 then (⊥ : WithBot ℚ) else ((fwd w u i : ℚ) : WithBot ℚ))

/-- The semantics of a variant's network in evaluation mode: a scalar
score per (user, item) pair, as a function of exactly the data the
checkpoint records — embedding dimension, hidden layer sizes, dropout
hyperparameter and the weight state dict. -/
def NNFun : Type :=
  Nat → List Nat → ℚ → List ℚ → Nat → Nat → ℚ

/-- The `NeuralMF` class state (NeuralMF.py lines 75-93): constructor
hyperparameters, the shape recorded at fit/restore time, `self.model`
(`none` ↔ Python `None`, otherwise its weight state dict) and
`self.model_loaded`. -/
structure NeuralMF where
  embedding_dim : Nat
  hidden_dims : List Nat
  dropout : ℚ
  batch_size : Nat
  epochs : Nat
  learning_rate : ℚ
  num_users : Nat
  num_items : Nat
  model : Option (List ℚ)
  model_loaded : Bool
deriving DecidableEq

/-- The record `torch.save` writes for NeuralMF (lines 244-251). -/
structure NeuralMFCkpt where
  model_state_dict : List ℚ
  num_users : Nat
  num_items : Nat
  embedding_dim : Nat
  hidden_dims : List Nat
  dropout : ℚ
deriving DecidableEq

/-- Embedding of `NeuralMF.recommend` (lines 190-237): the shared body at this
instance's fields, scoring each item against proxy user 0 with the
network `F` applied to this instance's architecture and weights. -/
def NeuralMF.recommend (F : NNFun) (m : NeuralMF) (user_context : List Nat)
    (top_k : Nat) : Except PyErr (List Nat) :=
  recommendCore m.model_loaded m.model m.num_items
    (fun w i => F m.embedding_dim m.hidden_dims m.dropout w 0 i) user_context top_k

/-- Embedding of `NeuralMF.predict` (lines 155-188). -/
def NeuralMF.predict (F : NNFun) (m : NeuralMF) (R : RatingMatrix) :
    Except PyErr (List (List (WithBot ℚ))) :=
  predictCore m.model_loaded m.model m.num_users m.num_items
    (fun w u i => F m.embedding_dim m.hidden_dims m.dropout w u i) R

/-- Embedding of `NeuralMF.save` (lines 239-251): serializes the state dict together
with `num_users`, `num_items`, `embedding_dim`, `hidden_dims` and
`dropout` (an `AttributeError` when `self.model` is `None`). -/
def NeuralMF.save (m : NeuralMF) : Except PyErr NeuralMFCkpt :=
  match m.model with
  | none => Except.error PyErr.attributeError
  | some w =>
    Except.ok { model_state_dict := w, num_users := m.num_users,
                num_items := m.num_items, embedding_dim := m.embedding_dim,
                hidden_dims := m.hidden_dims, dropout := m.dropout }

/-- Embedding of `NeuralMF.restore` (lines 253-284): `FileNotFoundError` when the
checkpoint path does not exist; otherwise every persisted field is
copied into the instance, the network is rebuilt from the restored
hyperparameters, its weights loaded, and `model_loaded` set. -/
def NeuralMF.restore (m : NeuralMF) (ckpt : Option NeuralMFCkpt) :
    Except PyErr NeuralMF :=
  match ckpt with
  | none => Except.error PyErr.fileNotFound
  | some c =>
    Except.ok { m with num_users := c.num_users, num_items := c.num_items,
                       embedding_dim := c.embedding_dim, hidden_dims := c.hidden_dims,
                       dropout := c.dropout, model := some c.model_state_dict,
                       model_loaded := true }

/-- The `DeepFM` class state (DeepFM.py lines 127-145); identical to
`NeuralMF` except that the hidden sizes are named `deep_hidden_dims`. -/
structure DeepFM where
  embedding_dim : Nat
  deep_hidden_dims : List Nat
  dropout : ℚ
  batch_size : Nat
  epochs : Nat
  learning_rate : ℚ
  num_users : Nat
  num_items : Nat
  model : Option (List ℚ)
  model_loaded : Bool
deriving DecidableEq

/-- The record `torch.save` writes for DeepFM (lines 293-300). -/
structure DeepFMCkpt where
  model_state_dict : List ℚ
  num_users : Nat
  num_items : Nat
  embedding_dim : Nat
  deep_hidden_dims : List Nat
  dropout : ℚ
deriving DecidableEq

/-- Embedding of `DeepFM.recommend` (DeepFM.py lines 240-286). -/
def DeepFM.recommend (F : NNFun) (m : DeepFM) (user_context : List Nat)
    (top_k : Nat) : Except PyErr (List Nat) :=
  recommendCore m.model_loaded m.model m.num_items
    (fun w i => F m.embedding_dim m.deep_hidden_dims m.dropout w 0 i) user_context top_k

/-- Embedding of `DeepFM.predict` (DeepFM.py lines 207-238). -/
def DeepFM.predict (F : NNFun) (m : DeepFM) (R : RatingMatrix) :
    Except PyErr (List (List (WithBot ℚ))) :=
  predictCore m.model_loaded m.model m.num_users m.num_items
    (fun w u i => F m.embedding_dim m.deep_hidden_dims m.dropout w u i) R

/-- Embedding of `DeepFM.save` (DeepFM.py lines 288-300). -/
def DeepFM.save (m : DeepFM) : Except PyErr DeepFMCkpt :=
  match m.model with
  | none => Except.error PyErr.attributeError
  | some w =>
    Except.ok { model_state_dict := w, num_users := m.num_users,
                num_items := m.num_items, embedding_dim := m.embedding_dim,
                deep_hidden_dims := m.deep_hidden_dims, dropout := m.dropout }

/-- Embedding of `DeepFM.restore` (DeepFM.py lines 302-333). -/
def DeepFM.restore (m : DeepFM) (ckpt : Option DeepFMCkpt) :
    Except PyErr DeepFM :=
  match ckpt with
  | none => Except.error PyErr.fileNotFound
  | some c =>
    Except.ok { m with num_users := c.num_users, num_items := c.num_items,
                       embedding_dim := c.embedding_dim,
                       deep_hidden_dims := c.deep_hidden_dims,
                       dropout := c.dropout, model := some c.model_state_dict,
                       model_loaded := true }

/-! ### Properties of the top-k selection -/

theorem length_topKIndices (s : Nat → WithBot ℚ) (k n : Nat) :
    (topKIndices s k n).length = min k n := by
  simp [topKIndices, List.length_take, List.length_insertionSort, List.length_range]

theorem sorted_topKIndices (s : Nat → WithBot ℚ) (k n : Nat) :
    (topKIndices s k n).Sorted (rankLe s) :=
  List.Pairwise.sublist (List.take_sublist k _)
    (List.sorted_insertionSort (rankLe s) (List.range n))

theorem nodup_topKIndices (s : Nat → WithBot ℚ) (k n : Nat) :
    (topKIndices s k n).Nodup :=
  List.Nodup.sublist (List.take_sublist k _)
    (((List.perm_insertionSort (rankLe s) (List.range n)).nodup_iff).mpr
      (List.nodup_range n))

theorem mem_topKIndices_lt (s : Nat → WithBot ℚ) (k n : Nat) {i : Nat}
    (hi : i ∈ topKIndices s k n) : i < n := by
  have h1 : i ∈ List.insertionSort (rankLe s) (List.range n) :=
    (List.take_sublist k _).subset hi
  have h2 := (List.perm_insertionSort (rankLe s) (List.range n)).mem_iff.mp h1
  simpa using h2

/-- Pigeonhole for the selection: as long as at least `k` indices carry a
non-masked score, every selected index is non-masked.  (Conversely, when
fewer than `k` indices are unmasked, the selection necessarily pads with
masked ones, which is the source of the refutations below.) -/
theorem topK_unmasked (s : Nat → WithBot ℚ) (k n : Nat)
    (hk : k ≤ (List.range n).countP (fun i => decide (¬ s i = ⊥))) :
    ∀ i ∈ topKIndices s k n, s i ≠ ⊥ := by
  intro i hi hbot
  simp only [topKIndices] at hi
  set p : Nat → Bool := fun j => decide (¬ s j = ⊥) with hp
  set L : List Nat := List.insertionSort (rankLe s) (List.range n) with hLdef
  have hperm : L.Perm (List.range n) := List.perm_insertionSort _ _
  have hsorted : L.Sorted (rankLe s) := List.sorted_insertionSort _ _
  have hsplit : L.take k ++ L.drop k = L := List.take_append_drop k L
  have hpw : ∀ a ∈ L.take k, ∀ b ∈ L.drop k, rankLe s a b := by
    have h := hsorted
    rw [← hsplit] at h
    exact fun a ha b hb => (List.pairwise_append.mp h).2.2 a ha b hb
  have hdrop : ∀ b ∈ L.drop k, s b = ⊥ := by
    intro b hb
    rcases hpw i hi b hb with h | h
    · rw [hbot] at h
      exact absurd h (by simp)
    · rw [← h.1, hbot]
  have hcL : L.countP p = (List.range n).countP p := hperm.countP_eq p
  have hcdrop : (L.drop k).countP p = 0 := by
    rw [List.countP_eq_zero]
    intro b hb
    simp [hp, hdrop b hb]
  have hctake_lt : (L.take k).countP p < (L.take k).length := by
    rcases Nat.lt_or_ge ((L.take k).countP p) (L.take k).length with h | h
    · exact h
    · exfalso
      have hEq : (L.take k).countP p = (L.take k).length :=
        Nat.le_antisymm (List.countP_le_length p) h
      have hall := List.countP_eq_length.mp hEq
      have hpi := hall i hi
      simp [hp, hbot] at hpi
  have hktake : (L.take k).length ≤ k := by
    simp [List.length_take]
  have hcount : (List.range n).countP p < k := by
    calc (List.range n).countP p = L.countP p := hcL.symm
      _ = (L.take k).countP p + (L.drop k).countP p := by
            rw [← List.countP_append, hsplit]
      _ = (L.take k).countP p := by rw [hcdrop, Nat.add_zero]
      _ < (L.take k).length := hctake_lt
      _ ≤ k := hktake
  exact absurd hk (Nat.not_le.mpr hcount)

theorem availableItems_eq_countP (score : Nat → ℚ) (ctx : List Nat) (n : Nat) :
    (List.range n).countP (fun i => decide (¬ maskedScore score ctx i = ⊥)) =
      availableItems n ctx := by
  unfold availableItems
  apply List.countP_congr
  intro i _
  by_cases h : i ∈ ctx <;> simp [maskedScore, h]

/-- When enough unmasked items are available, no selected index is a
context item (every context item's score was set to `⊥`). -/
theorem topK_not_mem_ctx (score : Nat → ℚ) (ctx : List Nat) (k n : Nat)
    (hk : k ≤ availableItems n ctx) :
    ∀ i ∈ topKIndices (maskedScore score ctx) k n, i ∉ ctx := by
  intro i hi hmem
  refine topK_unmasked (maskedScore score ctx) k n ?_ i hi ?_
  · rw [availableItems_eq_countP score ctx n]
    exact hk
  · simp [maskedScore, hmem]

/-- Evaluation of `recommendCore` on a loaded model with a nonempty,
in-range context and `top_k` below the catalog size. -/
theorem recommendCore_ok (w : List ℚ) (num_items : Nat) (score : List ℚ → Nat → ℚ)
    (ctx : List Nat) (top_k : Nat) (hctx : ctx ≠ [])
    (hvalid : ∀ c ∈ ctx, c < num_items) (hk : top_k < num_items) :
    recommendCore true (some w) num_items score ctx top_k =
      Except.ok (topKIndices (maskedScore (score w) ctx) top_k num_items) := by
  have hany : ctx.any (fun c => decide (num_items ≤ c)) = false := by
    rw [List.any_eq_false]
    intro c hc
    simpa using Nat.not_le.mpr (hvalid c hc)
  have hk' : ¬ num_items ≤ top_k := Nat.not_le.mpr hk
  simp [recommendCore, hctx, hany, hk', List.length_eq_zero]

/-- Evaluation of `predictCore` on a loaded model whose embedding tables
cover the input shape. -/
theorem predictCore_ok (w : List ℚ) (nU nI : Nat) (fwd : List ℚ → Nat → Nat → ℚ)
    (R : RatingMatrix) (hr : R.rows ≤ nU) (hc : R.cols ≤ nI) :
    predictCore true (some w) nU nI fwd R =
      Except.ok ((List.range R.rows).map fun u => (List.range R.cols).map fun i =>
        if R.entry u i ≠ 0 then (⊥ : WithBot ℚ) else ((fwd w u i : ℚ) : WithBot ℚ)) := by
  have hcond : ¬ predictErrCond nU nI R := by
    rintro ⟨h1, h2 | ⟨h3, h4⟩⟩
    · exact absurd hr (Nat.not_le.mpr h2)
    · exact absurd hc (Nat.not_le.mpr h4)
  simp [predictCore, hcond]

theorem getD_map_range (rows cols : Nat) (f : Nat → Nat → WithBot ℚ) (u i : Nat)
    (hu : u < rows) (hi : i < cols) :
    ((((List.range rows).map fun u => (List.range cols).map fun i => f u i).getD u
        []).getD i 0) = f u i := by
  simp [List.getD_eq_getElem?_getD, List.getElem?_map, List.getElem?_range, hu, hi]

/-! ### Concrete model instances for counterexamples and witnesses -/

/-- A concrete network semantics (constant score 0). -/
def F0 : NNFun := fun _ _ _ _ _ _ => 0

/-- A loaded `NeuralMF` over 1 user and 3 items. -/
def mA : NeuralMF :=
  { embedding_dim := 64, hidden_dims := [128, 64], dropout := 1/5,
    batch_size := 256, epochs := 20, learning_rate := 1/1000,
    num_users := 1, num_items := 3, model := some [0], model_loaded := true }

/-- A loaded `DeepFM` over 1 user and 3 items. -/
def mDA : DeepFM :=
  { embedding_dim := 64, deep_hidden_dims := [128, 64], dropout := 1/5,
    batch_size := 256, epochs := 20, learning_rate := 1/1000,
    num_users := 1, num_items := 3, model := some [0], model_loaded := true }

/-- A freshly constructed `NeuralMF()` (constructor defaults, nothing fit). -/
def freshA : NeuralMF :=
  { embedding_dim := 64, hidden_dims := [128, 64], dropout := 1/5,
    batch_size := 256, epochs := 20, learning_rate := 1/1000,
    num_users := 0, num_items := 0, model := none, model_loaded := false }

/-- A freshly constructed `DeepFM()`. -/
def freshDA : DeepFM :=
  { embedding_dim := 64, deep_hidden_dims := [128, 64], dropout := 1/5,
    batch_size := 256, epochs := 20, learning_rate := 1/1000,
    num_users := 0, num_items := 0, model := none, model_loaded := false }

/-- The model `mA` with the loaded flag cleared. -/
def mAUnloaded : NeuralMF := { mA with model_loaded := false }

/-- The model `mDA` with the loaded flag cleared. -/
def mDAUnloaded : DeepFM := { mDA with model_loaded := false }

/-! ### Claim C2: size and order of the top-k selection -/

/-- What the selection step actually guarantees: a successful result of
exactly `k` item indices below `n`, ordered by `rankLe s` (descending
score, ties by ascending index). -/
def selectionSpec (res : Except PyErr (List Nat)) (s : Nat → WithBot ℚ)
    (k n : Nat) : Prop :=
  ∃ l, res = Except.ok l ∧ l.length = k ∧ l.Sorted (rankLe s) ∧ ∀ i ∈ l, i < n

/-- C2 (counterexample): with 3 items, context `[0, 1]` and `topK = 2`,
only one item is available (non-masked), so `min(topK, available) = 1`;
yet `recommend` returns two indices (it pads with the masked context
item 0, whose score is `-inf`). -/
theorem topk_not_min_available_counterexample :
    NeuralMF.recommend F0 mA [0, 1] 2 = Except.ok [2, 0] ∧
    availableItems mA.num_items [0, 1] = 1 := by
  constructor
  · rfl
  · decide

/-- C2 (amended): on a loaded model with a nonempty in-range context and
`topK < numItems`, the selection returns exactly `topK` indices (not
`min(topK, available)`: when fewer than `topK` items are unmasked the
result is padded with masked context items), ordered by non-increasing
score, ties resolved by ascending item index. -/
theorem recommend_returns_topk_sorted (F : NNFun) (mN : NeuralMF) (mD : DeepFM)
    (w wD : List ℚ) (ctx ctxD : List Nat) (k kD : Nat) :
    (mN.model_loaded = true → mN.model = some w → ctx ≠ [] →
      (∀ c ∈ ctx, c < mN.num_items) → k < mN.num_items →
      selectionSpec (NeuralMF.recommend F mN ctx k)
        (maskedScore (fun i => F mN.embedding_dim mN.hidden_dims mN.dropout w 0 i) ctx)
        k mN.num_items) ∧
    (mD.model_loaded = true → mD.model = some wD → ctxD ≠ [] →
      (∀ c ∈ ctxD, c < mD.num_items) → kD < mD.num_items →
      selectionSpec (DeepFM.recommend F mD ctxD kD)
        (maskedScore (fun i => F mD.embedding_dim mD.deep_hidden_dims mD.dropout wD 0 i)
          ctxD)
        kD mD.num_items) := by
  constructor
  · intro h1 h2 h3 h4 h5
    refine ⟨topKIndices _ k mN.num_items, ?_, ?_, sorted_topKIndices _ _ _,
      fun i hi => mem_topKIndices_lt _ _ _ hi⟩
    · rw [NeuralMF.recommend, h1, h2]
      exact recommendCore_ok w mN.num_items _ ctx k h3 h4 h5
    · rw [length_topKIndices]
      exact Nat.min_eq_left (Nat.le_of_lt h5)
  · intro h1 h2 h3 h4 h5
    refine ⟨topKIndices _ kD mD.num_items, ?_, ?_, sorted_topKIndices _ _ _,
      fun i hi => mem_topKIndices_lt _ _ _ hi⟩
    · rw [DeepFM.recommend, h1, h2]
      exact recommendCore_ok wD mD.num_items _ ctxD kD h3 h4 h5
    · rw [length_topKIndices]
      exact Nat.min_eq_left (Nat.le_of_lt h5)

/-- Witness for `recommend_returns_topk_sorted`. -/
theorem recommend_returns_topk_sorted_witness :
    selectionSpec (NeuralMF.recommend F0 mA [0, 1] 2)
      (maskedScore (fun i => F0 mA.embedding_dim mA.hidden_dims mA.dropout [0] 0 i)
        [0, 1]) 2 mA.num_items ∧
    selectionSpec (DeepFM.recommend F0 mDA [0, 1] 2)
      (maskedScore (fun i => F0 mDA.embedding_dim mDA.deep_hidden_dims mDA.dropout [0] 0 i)
        [0, 1]) 2 mDA.num_items :=
  ⟨(recommend_returns_topk_sorted F0 mA mDA [0] [0] [0, 1] [0, 1] 2 2).1
      rfl rfl (by decide) (by decide) (by decide),
   (recommend_returns_topk_sorted F0 mA mDA [0] [0] [0, 1] [0, 1] 2 2).2
      rfl rfl (by decide) (by decide) (by decide)⟩

/-! ### Claim C3: distinctness and context exclusion -/

/-- What `recommend` actually guarantees about its result list: at most
`k` pairwise-distinct in-range ids, which avoid the context only when at
least `k` unmasked items remain. -/
def distinctSpec (res : Except PyErr (List Nat)) (ctx : List Nat)
    (k n : Nat) : Prop :=
  ∃ l, res = Except.ok l ∧ l.length ≤ k ∧ l.Nodup ∧ (∀ i ∈ l, i < n) ∧
    (k ≤ availableItems n ctx → ∀ i ∈ l, i ∉ ctx)

/-- C3 (counterexample): with 3 items, context `[0, 1]` and `topK = 2`,
`recommend` returns `[2, 0]` — and the returned id `0` is an element of
the context (its `-inf` masked score is selected as padding). -/
theorem recommend_includes_context_counterexample :
    NeuralMF.recommend F0 mA [0, 1] 2 = Except.ok [2, 0] ∧ (0 : Nat) ∈ [0, 1] := by
  constructor
  · rfl
  · decide

/-- C3 (amended): on a loaded model with a nonempty in-range context and
`topK < numItems`, `recommend` returns at most `topK` pairwise-distinct
item ids; none of them is a context element provided at least `topK`
non-masked items are available — otherwise masked context items pad the
result. -/
theorem recommend_distinct_excludes_context (F : NNFun) (mN : NeuralMF) (mD : DeepFM)
    (w wD : List ℚ) (ctx ctxD : List Nat) (k kD : Nat) :
    (mN.model_loaded = true → mN.model = some w → ctx ≠ [] →
      (∀ c ∈ ctx, c < mN.num_items) → k < mN.num_items →
      distinctSpec (NeuralMF.recommend F mN ctx k) ctx k mN.num_items) ∧
    (mD.model_loaded = true → mD.model = some wD → ctxD ≠ [] →
      (∀ c ∈ ctxD, c < mD.num_items) → kD < mD.num_items →
      distinctSpec (DeepFM.recommend F mD ctxD kD) ctxD kD mD.num_items) := by
  constructor
  · intro h1 h2 h3 h4 h5
    refine ⟨topKIndices
        (maskedScore (fun i => F mN.embedding_dim mN.hidden_dims mN.dropout w 0 i) ctx)
        k mN.num_items, ?_, ?_, nodup_topKIndices _ _ _,
      fun i hi => mem_topKIndices_lt _ _ _ hi,
      fun hav => topK_not_mem_ctx _ ctx k mN.num_items hav⟩
    · rw [NeuralMF.recommend, h1, h2]
      exact recommendCore_ok w mN.num_items _ ctx k h3 h4 h5
    · rw [length_topKIndices]
      exact Nat.min_le_left _ _
  · intro h1 h2 h3 h4 h5
    refine ⟨topKIndices
        (maskedScore (fun i => F mD.embedding_dim mD.deep_hidden_dims mD.dropout wD 0 i)
          ctxD)
        kD mD.num_items, ?_, ?_, nodup_topKIndices _ _ _,
      fun i hi => mem_topKIndices_lt _ _ _ hi,
      fun hav => topK_not_mem_ctx _ ctxD kD mD.num_items hav⟩
    · rw [DeepFM.recommend, h1, h2]
      exact recommendCore_ok wD mD.num_items _ ctxD kD h3 h4 h5
    · rw [length_topKIndices]
      exact Nat.min_le_left _ _

/-- Witness for `recommend_distinct_excludes_context`. -/
theorem recommend_distinct_excludes_context_witness :
    distinctSpec (NeuralMF.recommend F0 mA [0] 2) [0] 2 mA.num_items ∧
    distinctSpec (DeepFM.recommend F0 mDA [0] 2) [0] 2 mDA.num_items :=
  ⟨(recommend_distinct_excludes_context F0 mA mDA [0] [0] [0] [0] 2 2).1
      rfl rfl (by decide) (by decide) (by decide),
   (recommend_distinct_excludes_context F0 mA mDA [0] [0] [0] [0] 2 2).2
      rfl rfl (by decide) (by decide) (by decide)⟩

/-! ### Claim C8: empty context short-circuit -/

/-- C8: on a loaded model, `recommend` with the empty context returns
the empty list for every network semantics `F`, every weight vector and
every `topK` — the result does not depend on the scoring path at all
(the early return precedes `self.model.eval()` and the forward pass). -/
theorem recommend_empty_context (F : NNFun) (mN : NeuralMF) (mD : DeepFM)
    (kN kD : Nat) (hN : mN.model_loaded = true) (hD : mD.model_loaded = true) :
    NeuralMF.recommend F mN [] kN = Except.ok [] ∧
    DeepFM.recommend F mD [] kD = Except.ok [] := by
  constructor
  · simp [NeuralMF.recommend, recommendCore, hN]
  · simp [DeepFM.recommend, recommendCore, hD]

/-- Witness for `recommend_empty_context`. -/
theorem recommend_empty_context_witness :
    NeuralMF.recommend F0 mA [] 10 = Except.ok [] ∧
    DeepFM.recommend F0 mDA [] 10 = Except.ok [] :=
  recommend_empty_context F0 mA mDA 10 10 rfl rfl

/-! ### Claim C10: the selection is only defined for topK < numItems -/

/-- C10: on a loaded model with a nonempty in-range context,
`np.argpartition(-scores, topK)` raises an out-of-bounds error whenever
`topK ≥ numItems`, and the call succeeds whenever `topK < numItems`. -/
theorem recommend_topk_bound (F : NNFun) (mN : NeuralMF) (mD : DeepFM)
    (w wD : List ℚ) (ctx ctxD : List Nat) (k kD : Nat) :
    (mN.model_loaded = true → mN.model = some w → ctx ≠ [] →
      (∀ c ∈ ctx, c < mN.num_items) →
      ((mN.num_items ≤ k →
          NeuralMF.recommend F mN ctx k = Except.error PyErr.argpartitionOOB) ∧
       (k < mN.num_items → ∃ l, NeuralMF.recommend F mN ctx k = Except.ok l))) ∧
    (mD.model_loaded = true → mD.model = some wD → ctxD ≠ [] →
      (∀ c ∈ ctxD, c < mD.num_items) →
      ((mD.num_items ≤ kD →
          DeepFM.recommend F mD ctxD kD = Except.error PyErr.argpartitionOOB) ∧
       (kD < mD.num_items → ∃ l, DeepFM.recommend F mD ctxD kD = Except.ok l))) := by
  constructor
  · intro h1 h2 h3 h4
    constructor
    · intro hk
      have hany : ctx.any (fun c => decide (mN.num_items ≤ c)) = false := by
        rw [List.any_eq_false]
        intro c hc
        simpa using Nat.not_le.mpr (h4 c hc)
      rw [NeuralMF.recommend, h1, h2]
      simp [recommendCore, h3, hany, hk, List.length_eq_zero]
    · intro hk
      rw [NeuralMF.recommend, h1, h2, recommendCore_ok w mN.num_items _ ctx k h3 h4 hk]
      exact ⟨_, rfl⟩
  · intro h1 h2 h3 h4
    constructor
    · intro hk
      have hany : ctxD.any (fun c => decide (mD.num_items ≤ c)) = false := by
        rw [List.any_eq_false]
        intro c hc
        simpa using Nat.not_le.mpr (h4 c hc)
      rw [DeepFM.recommend, h1, h2]
      simp [recommendCore, h3, hany, hk, List.length_eq_zero]
    · intro hk
      rw [DeepFM.recommend, h1, h2, recommendCore_ok wD mD.num_items _ ctxD kD h3 h4 hk]
      exact ⟨_, rfl⟩

/-- Witness for `recommend_topk_bound`: with 3 items, `topK = 3` raises
the out-of-bounds error and `topK = 2` succeeds. -/
theorem recommend_topk_bound_witness :
    NeuralMF.recommend F0 mA [0] 3 = Except.error PyErr.argpartitionOOB ∧
    DeepFM.recommend F0 mDA [0] 3 = Except.error PyErr.argpartitionOOB ∧
    (∃ l, NeuralMF.recommend F0 mA [0] 2 = Except.ok l) :=
  ⟨((recommend_topk_bound F0 mA mDA [0] [0] [0] [0] 3 3).1
      rfl rfl (by decide) (by decide)).1 (by decide),
   ((recommend_topk_bound F0 mA mDA [0] [0] [0] [0] 3 3).2
      rfl rfl (by decide) (by decide)).1 (by decide),
   ((recommend_topk_bound F0 mA mDA [0] [0] [0] [0] 2 2).1
      rfl rfl (by decide) (by decide)).2 (by decide)⟩

/-! ### Claim C7: predict shape and masking -/

/-- What a successful `predict` returns: a dense matrix of the input's
shape whose entry at `(u, i)` is the forward score, overwritten with
`-inf` (`⊥`) wherever the input rating matrix is nonzero. -/
def predictSpecOk (res : Except PyErr (List (List (WithBot ℚ)))) (R : RatingMatrix)
    (fwd : Nat → Nat → ℚ) : Prop :=
  ∃ P, res = Except.ok P ∧ P.length = R.rows ∧ (∀ row ∈ P, row.length = R.cols) ∧
    ∀ u, u < R.rows → ∀ i, i < R.cols →
      (P.getD u []).getD i 0 =
        (if R.entry u i ≠ 0 then (⊥ : WithBot ℚ) else ((fwd u i : ℚ) : WithBot ℚ))

/-- C7: `predict` fails with `NotLoaded` when the model is not loaded;
on a loaded model it returns a dense matrix of the input's shape in
which every entry at a nonzero position of the input is `-inf` and every
other entry is the forward score.  (The input is assumed to fit inside
the model's embedding tables — the spec's shape invariant; what happens
otherwise is claim C4's subject.) -/
theorem predict_masks_known_entries (F : NNFun) (mN : NeuralMF) (mD : DeepFM)
    (R RD : RatingMatrix) :
    (mN.model_loaded = false →
      NeuralMF.predict F mN R =
        Except.error (PyErr.valueError "Model not loaded. Call restore() first.")) ∧
    (mD.model_loaded = false →
      DeepFM.predict F mD RD =
        Except.error (PyErr.valueError "Model not loaded. Call restore() first.")) ∧
    (∀ w, mN.model_loaded = true → mN.model = some w →
      R.rows ≤ mN.num_users → R.cols ≤ mN.num_items →
      predictSpecOk (NeuralMF.predict F mN R) R
        (fun u i => F mN.embedding_dim mN.hidden_dims mN.dropout w u i)) ∧
    (∀ w, mD.model_loaded = true → mD.model = some w →
      RD.rows ≤ mD.num_users → RD.cols ≤ mD.num_items →
      predictSpecOk (DeepFM.predict F mD RD) RD
        (fun u i => F mD.embedding_dim mD.deep_hidden_dims mD.dropout w u i)) := by
  refine ⟨?_, ?_, ?_, ?_⟩
  · intro h
    simp [NeuralMF.predict, predictCore, h]
  · intro h
    simp [DeepFM.predict, predictCore, h]
  · intro w h1 h2 hr hc
    refine ⟨(List.range R.rows).map fun u => (List.range R.cols).map fun i =>
        if R.entry u i ≠ 0 then (⊥ : WithBot ℚ)
        else ((F mN.embedding_dim mN.hidden_dims mN.dropout w u i : ℚ) : WithBot ℚ),
      ?_, ?_, ?_, ?_⟩
    · rw [NeuralMF.predict, h1, h2]
      exact predictCore_ok w mN.num_users mN.num_items _ R hr hc
    · simp
    · intro row hrow
      rcases List.mem_map.mp hrow with ⟨u, _, hu⟩
      simp [← hu]
    · intro u hu i hi
      exact getD_map_range R.rows R.cols _ u i hu hi
  · intro w h1 h2 hr hc
    refine ⟨(List.range RD.rows).map fun u => (List.range RD.cols).map fun i =>
        if RD.entry u i ≠ 0 then (⊥ : WithBot ℚ)
        else ((F mD.embedding_dim mD.deep_hidden_dims mD.dropout w u i : ℚ) : WithBot ℚ),
      ?_, ?_, ?_, ?_⟩
    · rw [DeepFM.predict, h1, h2]
      exact predictCore_ok w mD.num_users mD.num_items _ RD hr hc
    · simp
    · intro row hrow
      rcases List.mem_map.mp hrow with ⟨u, _, hu⟩
      simp [← hu]
    · intro u hu i hi
      exact getD_map_range RD.rows RD.cols _ u i hu hi

/-- A 1-user, 1-item rating matrix with its single entry present. -/
def R0 : RatingMatrix := { rows := 1, cols := 1, entry := fun _ _ => 1 }

/-- Witness for `predict_masks_known_entries`. -/
theorem predict_masks_known_entries_witness :
    NeuralMF.predict F0 mAUnloaded R0 =
      Except.error (PyErr.valueError "Model not loaded. Call restore() first.") ∧
    predictSpecOk (NeuralMF.predict F0 mA R0) R0
      (fun u i => F0 mA.embedding_dim mA.hidden_dims mA.dropout [0] u i) ∧
    predictSpecOk (DeepFM.predict F0 mDA R0) R0
      (fun u i => F0 mDA.embedding_dim mDA.deep_hidden_dims mDA.dropout [0] u i) :=
  ⟨(predict_masks_known_entries F0 mAUnloaded mDA R0 R0).1 rfl,
   (predict_masks_known_entries F0 mA mDA R0 R0).2.2.1 [0] rfl rfl
      (by decide) (by decide),
   (predict_masks_known_entries F0 mA mDA R0 R0).2.2.2 [0] rfl rfl
      (by decide) (by decide)⟩

/-! ### Claim C4: no typed InvalidShape error exists -/

/-- A 2-user, 1-item rating matrix (shape differing from a 1×1 model). -/
def R21 : RatingMatrix := { rows := 2, cols := 1, entry := fun _ _ => 1 }

/-- The checkpoint of a 1-user, 1-item model. -/
def ck1 : NeuralMFCkpt :=
  { model_state_dict := [0], num_users := 1, num_items := 1,
    embedding_dim := 64, hidden_dims := [128, 64], dropout := 1/5 }

/-- The model obtained by restoring `ck1` on a fresh instance. -/
def m1x1 : NeuralMF :=
  { freshA with num_users := 1, num_items := 1, model := some [0],
                model_loaded := true }

/-- C4 (counterexample): a restored 1-user, 1-item model scored against
a 2×1 matrix (dimensions inconsistent with the recorded
`numUsers`/`numItems`) does not fail with a typed `InvalidShape` error —
it raises an untyped index error from the embedding lookup. -/
theorem predict_shape_mismatch_counterexample :
    NeuralMF.restore freshA (some ck1) = Except.ok m1x1 ∧
    (m1x1.num_users ≠ R21.rows ∨ m1x1.num_items ≠ R21.cols) ∧
    NeuralMF.predict F0 m1x1 R21 = Except.error PyErr.indexError ∧
    (Except.error PyErr.indexError : Except PyErr (List (List (WithBot ℚ)))) ≠
      Except.error PyErr.invalidShape := by
  refine ⟨rfl, by decide, rfl, by simp⟩

/-- C4 (amended): `predict` performs no shape validation at all.  On a
loaded model it never raises `InvalidShape`; when the input extends past
the model's embedding tables (and the scoring loops actually run) it
raises an untyped index error, and in every other case — including a
matrix strictly smaller than the recorded shape — it silently
succeeds. -/
theorem predict_never_invalidShape (F : NNFun) (mN : NeuralMF) (mD : DeepFM)
    (R RD : RatingMatrix) (w wD : List ℚ) :
    (mN.model_loaded = true → mN.model = some w →
      (NeuralMF.predict F mN R ≠ Except.error PyErr.invalidShape) ∧
      (predictErrCond mN.num_users mN.num_items R →
        NeuralMF.predict F mN R = Except.error PyErr.indexError) ∧
      (¬ predictErrCond mN.num_users mN.num_items R →
        ∃ P, NeuralMF.predict F mN R = Except.ok P)) ∧
    (mD.model_loaded = true → mD.model = some wD →
      (DeepFM.predict F mD RD ≠ Except.error PyErr.invalidShape) ∧
      (predictErrCond mD.num_users mD.num_items RD →
        DeepFM.predict F mD RD = Except.error PyErr.indexError) ∧
      (¬ predictErrCond mD.num_users mD.num_items RD →
        ∃ P, DeepFM.predict F mD RD = Except.ok P)) := by
  constructor
  · intro h1 h2
    have herr : predictErrCond mN.num_users mN.num_items R →
        NeuralMF.predict F mN R = Except.error PyErr.indexError := by
      intro hcond
      rw [NeuralMF.predict, h1, h2]
      simp [predictCore, hcond]
    have hok : ¬ predictErrCond mN.num_users mN.num_items R →
        ∃ P, NeuralMF.predict F mN R = Except.ok P := by
      intro hcond
      rw [NeuralMF.predict, h1, h2]
      refine ⟨(List.range R.rows).map fun u => (List.range R.cols).map fun i =>
          if R.entry u i ≠ 0 then (⊥ : WithBot ℚ)
          else ((F mN.embedding_dim mN.hidden_dims mN.dropout w u i : ℚ) : WithBot ℚ), ?_⟩
      simp [predictCore, hcond]
    refine ⟨?_, herr, hok⟩
    by_cases hcond : predictErrCond mN.num_users mN.num_items R
    · rw [herr hcond]
      simp
    · rcases hok hcond with ⟨P, hP⟩
      rw [hP]
      exact fun h => Except.noConfusion h
  · intro h1 h2
    have herr : predictErrCond mD.num_users mD.num_items RD →
        DeepFM.predict F mD RD = Except.error PyErr.indexError := by
      intro hcond
      rw [DeepFM.predict, h1, h2]
      simp [predictCore, hcond]
    have hok : ¬ predictErrCond mD.num_users mD.num_items RD →
        ∃ P, DeepFM.predict F mD RD = Except.ok P := by
      intro hcond
      rw [DeepFM.predict, h1, h2]
      refine ⟨(List.range RD.rows).map fun u => (List.range RD.cols).map fun i =>
          if RD.entry u i ≠ 0 then (⊥ : WithBot ℚ)
          else ((F mD.embedding_dim mD.deep_hidden_dims mD.dropout wD u i : ℚ) : WithBot ℚ),
        ?_⟩
      simp [predictCore, hcond]
    refine ⟨?_, herr, hok⟩
    by_cases hcond : predictErrCond mD.num_users mD.num_items RD
    · rw [herr hcond]
      simp
    · rcases hok hcond with ⟨P, hP⟩
      rw [hP]
      exact fun h => Except.noConfusion h

/-- Witness for `predict_never_invalidShape`: the index-error branch on
an oversized matrix and the silent-success branch on a smaller one. -/
theorem predict_never_invalidShape_witness :
    NeuralMF.predict F0 m1x1 R21 = Except.error PyErr.indexError ∧
    (∃ P, NeuralMF.predict F0 mA R0 = Except.ok P) :=
  ⟨((predict_never_invalidShape F0 m1x1 mDA R21 R0 [0] [0]).1 rfl rfl).2.1 (by decide),
   ((predict_never_invalidShape F0 mA mDA R0 R0 [0] [0]).1 rfl rfl).2.2 (by decide)⟩

/-! ### Claim C9: save / restore round trip -/

/-- The function `predict` reads only the loaded flag, the state dict, the recorded
shape and the architecture hyperparameters — exactly the checkpoint
contents. -/
theorem neuralMF_predict_reads_ckpt_fields (F : NNFun) (m m' : NeuralMF)
    (h1 : m'.model_loaded = m.model_loaded) (h2 : m'.model = m.model)
    (h3 : m'.num_users = m.num_users) (h4 : m'.num_items = m.num_items)
    (h5 : m'.embedding_dim = m.embedding_dim) (h6 : m'.hidden_dims = m.hidden_dims)
    (h7 : m'.dropout = m.dropout) (R : RatingMatrix) :
    NeuralMF.predict F m' R = NeuralMF.predict F m R := by
  rw [NeuralMF.predict, NeuralMF.predict, h1, h2, h3, h4, h5, h6, h7]

theorem deepFM_predict_reads_ckpt_fields (F : NNFun) (m m' : DeepFM)
    (h1 : m'.model_loaded = m.model_loaded) (h2 : m'.model = m.model)
    (h3 : m'.num_users = m.num_users) (h4 : m'.num_items = m.num_items)
    (h5 : m'.embedding_dim = m.embedding_dim)
    (h6 : m'.deep_hidden_dims = m.deep_hidden_dims)
    (h7 : m'.dropout = m.dropout) (R : RatingMatrix) :
    DeepFM.predict F m' R = DeepFM.predict F m R := by
  rw [DeepFM.predict, DeepFM.predict, h1, h2, h3, h4, h5, h6, h7]

/-- C9: for a trained (loaded) model, `save` followed by `restore` on a
fresh instance of the same variant reproduces the full persisted state —
`numUsers`, `numItems`, embedding dimension, hidden layer sizes, dropout
and the weight state dict — and therefore `predict` on the restored
instance agrees exactly with `predict` on the original for every input
matrix. -/
theorem save_restore_roundtrip (F : NNFun) (mN freshN : NeuralMF)
    (mD freshD : DeepFM) (w wD : List ℚ)
    (hN : mN.model_loaded = true) (hNw : mN.model = some w)
    (hD : mD.model_loaded = true) (hDw : mD.model = some wD) :
    (∃ c m', NeuralMF.save mN = Except.ok c ∧
      NeuralMF.restore freshN (some c) = Except.ok m' ∧
      m'.num_users = mN.num_users ∧ m'.num_items = mN.num_items ∧
      m'.embedding_dim = mN.embedding_dim ∧ m'.hidden_dims = mN.hidden_dims ∧
      m'.dropout = mN.dropout ∧ m'.model = mN.model ∧
      m'.model_loaded = mN.model_loaded ∧
      (∀ R, NeuralMF.predict F m' R = NeuralMF.predict F mN R)) ∧
    (∃ c m', DeepFM.save mD = Except.ok c ∧
      DeepFM.restore freshD (some c) = Except.ok m' ∧
      m'.num_users = mD.num_users ∧ m'.num_items = mD.num_items ∧
      m'.embedding_dim = mD.embedding_dim ∧ m'.deep_hidden_dims = mD.deep_hidden_dims ∧
      m'.dropout = mD.dropout ∧ m'.model = mD.model ∧
      m'.model_loaded = mD.model_loaded ∧
      (∀ R, DeepFM.predict F m' R = DeepFM.predict F mD R)) := by
  constructor
  · have hc : NeuralMF.save mN =
        Except.ok ⟨w, mN.num_users, mN.num_items, mN.embedding_dim,
          mN.hidden_dims, mN.dropout⟩ := by
      rw [NeuralMF.save, hNw]
    refine ⟨_, _, hc, rfl, rfl, rfl, rfl, rfl, rfl, hNw.symm, hN.symm, ?_⟩
    intro R
    apply neuralMF_predict_reads_ckpt_fields F mN <;> first | rfl | rw [hN] | rw [hNw]
  · have hc : DeepFM.save mD =
        Except.ok ⟨wD, mD.num_users, mD.num_items, mD.embedding_dim,
          mD.deep_hidden_dims, mD.dropout⟩ := by
      rw [DeepFM.save, hDw]
    refine ⟨_, _, hc, rfl, rfl, rfl, rfl, rfl, rfl, hDw.symm, hD.symm, ?_⟩
    intro R
    apply deepFM_predict_reads_ckpt_fields F mD <;> first | rfl | rw [hD] | rw [hDw]

/-- Witness for `save_restore_roundtrip`. -/
theorem save_restore_roundtrip_witness :
    (∃ c m', NeuralMF.save mA = Except.ok c ∧
      NeuralMF.restore freshA (some c) = Except.ok m' ∧
      m'.num_users = mA.num_users ∧ m'.num_items = mA.num_items ∧
      m'.embedding_dim = mA.embedding_dim ∧ m'.hidden_dims = mA.hidden_dims ∧
      m'.dropout = mA.dropout ∧ m'.model = mA.model ∧
      m'.model_loaded = mA.model_loaded ∧
      (∀ R, NeuralMF.predict F0 m' R = NeuralMF.predict F0 mA R)) ∧
    (∃ c m', DeepFM.save mDA = Except.ok c ∧
      DeepFM.restore freshDA (some c) = Except.ok m' ∧
      m'.num_users = mDA.num_users ∧ m'.num_items = mDA.num_items ∧
      m'.embedding_dim = mDA.embedding_dim ∧ m'.deep_hidden_dims = mDA.deep_hidden_dims ∧
      m'.dropout = mDA.dropout ∧ m'.model = mDA.model ∧
      m'.model_loaded = mDA.model_loaded ∧
      (∀ R, DeepFM.predict F0 m' R = DeepFM.predict F0 mDA R)) :=
  save_restore_roundtrip F0 mA freshA mDA freshDA [0] [0] rfl rfl rfl rfl

end MovieRec
